import Mathlib

/-!
Verification of the protocol layer of the VMU931 IMU drivers
(src/vmu931_cdc_driver.py and src/vmu931_driver.py).

Bytes are modelled as natural numbers (with explicit `< 256` bounds where a
statement needs them).  IEEE-754 floats produced by struct.unpack are modelled
by their raw big-endian 32-bit bit patterns.  Python indexing and slicing on
bytearrays (including negative indices and IndexError) are modelled by the
pyGet / pySlice / pyTail helpers below.
-/

set_option maxRecDepth 100000
set_option synthInstance.maxHeartbeats 2000000
set_option synthInstance.maxSize 2048

/-- Python indexing l[k]: negative indices count from the end; out-of-range
yields none (an IndexError). -/
def pyGet (l : List Nat) (k : Int) : Option Nat :=
  if 0 ≤ k then
    (if k.toNat < l.length then some (l.getD k.toNat 0) else none)
  else
    (if (-k).toNat ≤ l.length then some (l.getD (l.length - (-k).toNat) 0) else none)

/-- Python slice-bound resolution: negative bounds count from the end
(clamped at 0), nonnegative bounds are clamped at the length. -/
def pyBound (len : Nat) (k : Int) : Nat :=
  if k < 0 then len - (-k).toNat else min k.toNat len

/-- Python slice l[a:b] (never raises). -/
def pySlice (l : List Nat) (a b : Int) : List Nat :=
  (l.drop (pyBound l.length a)).take (pyBound l.length b - pyBound l.length a)

/-- Python tail slice l[a:]. -/
def pyTail (l : List Nat) (a : Int) : List Nat :=
  l.drop (pyBound l.length a)

/-- Big-endian 32-bit word from four bytes (struct ">I" / raw float pattern). -/
def beWord (a b c d : Nat) : Nat :=
  ((a * 256 + b) * 256 + c) * 256 + d

/-- The four big-endian 32-bit words struct.unpack(">Ifff", ...) reads from the
first 16 bytes of a message: the u32 timestamp and the bit patterns of the
three floats. -/
def motionWords (msg : List Nat) : Nat × Nat × Nat × Nat :=
  (beWord (msg.getD 0 0) (msg.getD 1 0) (msg.getD 2 0) (msg.getD 3 0),
   beWord (msg.getD 4 0) (msg.getD 5 0) (msg.getD 6 0) (msg.getD 7 0),
   beWord (msg.getD 8 0) (msg.getD 9 0) (msg.getD 10 0) (msg.getD 11 0),
   beWord (msg.getD 12 0) (msg.getD 13 0) (msg.getD 14 0) (msg.getD 15 0))

/-- struct.unpack(">Ifff", message[:16]) from both drivers: succeeds exactly
when the message holds at least 16 bytes, reading only the first 16; a shorter
message raises struct.error, modelled as none. -/
def decode_motion (msg : List Nat) : Option (Nat × Nat × Nat × Nat) :=
  if 16 ≤ msg.length then some (motionWords msg) else none

/-- The structured device configuration, mirroring the keys of
VMU931Driver.basic_configuration.  The two resolutions are Option-valued
because _parse_status_message leaves them None when no resolution bit is set. -/
structure StatusConfig where
  magnetometer_enabled : Bool
  gyroscope_enabled : Bool
  accelerometer_enabled : Bool
  gyroscope_resolution : Option Nat
  accelerometer_resolution : Option Nat
  low_output_rate : Bool
  heading_streaming : Bool
  euler_streaming : Bool
  magnetometer_streaming : Bool
  quaternion_streaming : Bool
  gyroscope_streaming : Bool
  accelerometer_streaming : Bool
deriving DecidableEq, Repr

/-- The gyro-resolution if/elif chain of _parse_status_message (byte 1,
high nibble, highest bit wins). -/
def gyro_res_of (res : Nat) : Option Nat :=
  if (res &&& 128) != 0 then some 2000
  else if (res &&& 64) != 0 then some 1000
  else if (res &&& 32) != 0 then some 500
  else if (res &&& 16) != 0 then some 250
  else none

/-- The accelerometer-resolution if/elif chain of _parse_status_message
(byte 1, low nibble, highest bit wins). -/
def acc_res_of (res : Nat) : Option Nat :=
  if (res &&& 8) != 0 then some 16
  else if (res &&& 4) != 0 then some 8
  else if (res &&& 2) != 0 then some 4
  else if (res &&& 1) != 0 then some 2
  else none

/-- VMU931Driver._parse_status_message: struct.unpack(">BBBI", message[:7])
raises (none) on fewer than 7 bytes; otherwise decodes the three packed bytes
and the big-endian 32-bit streaming word exactly as the source does. -/
def parse_status_message (message : List Nat) : Option StatusConfig :=
  if 7 ≤ message.length then
    some {
      magnetometer_enabled := ((message.getD 0 0) &&& 4) != 0
      gyroscope_enabled := ((message.getD 0 0) &&& 2) != 0
      accelerometer_enabled := ((message.getD 0 0) &&& 1) != 0
      gyroscope_resolution := gyro_res_of (message.getD 1 0)
      accelerometer_resolution := acc_res_of (message.getD 1 0)
      low_output_rate := ((message.getD 2 0) &&& 1) != 0
      heading_streaming :=
        ((beWord (message.getD 3 0) (message.getD 4 0) (message.getD 5 0) (message.getD 6 0)) &&& 64) != 0
      euler_streaming :=
        ((beWord (message.getD 3 0) (message.getD 4 0) (message.getD 5 0) (message.getD 6 0)) &&& 16) != 0
      magnetometer_streaming :=
        ((beWord (message.getD 3 0) (message.getD 4 0) (message.getD 5 0) (message.getD 6 0)) &&& 8) != 0
      quaternion_streaming :=
        ((beWord (message.getD 3 0) (message.getD 4 0) (message.getD 5 0) (message.getD 6 0)) &&& 4) != 0
      gyroscope_streaming :=
        ((beWord (message.getD 3 0) (message.getD 4 0) (message.getD 5 0) (message.getD 6 0)) &&& 2) != 0
      accelerometer_streaming :=
        ((beWord (message.getD 3 0) (message.getD 4 0) (message.getD 5 0) (message.getD 6 0)) &&& 1) != 0
    }
  else none

/-- VMU931Driver.gyro_resolutions = {250: 0, 500: 1, 1000: 2, 2000: 3}. -/
def gyro_resolutions (r : Nat) : Option Nat :=
  if r = 250 then some 0
  else if r = 500 then some 1
  else if r = 1000 then some 2
  else if r = 2000 then some 3
  else none

/-- VMU931Driver.accelerometer_resolutions = {2: 4, 4: 5, 8: 6, 16: 7}. -/
def accelerometer_resolutions (r : Nat) : Option Nat :=
  if r = 2 then some 4
  else if r = 4 then some 5
  else if r = 8 then some 6
  else if r = 16 then some 7
  else none

/-- VMU931Driver.set_gyro_resolution: ValueError (error) unless the requested
resolution is a key of gyro_resolutions; otherwise the command string it
writes to the port.  A None resolution is never a key, hence an error. -/
def set_gyro_resolution (r : Option Nat) : Except String String :=
  match r with
  | none => Except.error "Resolution must be one of gyro_resolutions"
  | some v =>
    match gyro_resolutions v with
    | none => Except.error "Resolution must be one of gyro_resolutions"
    | some code => Except.ok ("var" ++ toString code)

/-- VMU931Driver.set_accelerometer_resolution, as set_gyro_resolution. -/
def set_accelerometer_resolution (r : Option Nat) : Except String String :=
  match r with
  | none => Except.error "Resolution must be one of accelerometer_resolutions"
  | some v =>
    match accelerometer_resolutions v with
    | none => Except.error "Resolution must be one of accelerometer_resolutions"
    | some code => Except.ok ("var" ++ toString code)

/-- The six conditional toggle writes of VMU931Driver.set_configuration, in
source order; each fires exactly when the current and new flag differ
(Python bool ^). -/
def toggle_commands (cur des : StatusConfig) : List String :=
  (if cur.accelerometer_streaming != des.accelerometer_streaming then ["vara"] else []) ++
  (if cur.gyroscope_streaming != des.gyroscope_streaming then ["varg"] else []) ++
  (if cur.magnetometer_streaming != des.magnetometer_streaming then ["varc"] else []) ++
  (if cur.quaternion_streaming != des.quaternion_streaming then ["varq"] else []) ++
  (if cur.euler_streaming != des.euler_streaming then ["vare"] else []) ++
  (if cur.heading_streaming != des.heading_streaming then ["varh"] else [])

/-- VMU931Driver.set_configuration: the ordered sequence of command strings
written to the port (or the ValueError raised by a resolution setter).  The
source always calls set_gyro_resolution and set_accelerometer_resolution
first, then the six conditional toggles. -/
def set_configuration (cur des : StatusConfig) : Except String (List String) :=
  match set_gyro_resolution des.gyroscope_resolution with
  | Except.error e => Except.error e
  | Except.ok g =>
    match set_accelerometer_resolution des.accelerometer_resolution with
    | Except.error e => Except.error e
    | Except.ok a => Except.ok ([g, a] ++ toggle_commands cur des)

/-- Modelled from the spec: the ordered toggle sequence the spec describes for
diff_commands — the fixed command order vara, varg, varc, varq, vare, varh
filtered down to the flags that differ.  Used to compare set_configuration's
toggle part against the spec's wording. -/
def toggle_order_spec (cur des : StatusConfig) : List String :=
  (([("vara", cur.accelerometer_streaming != des.accelerometer_streaming),
     ("varg", cur.gyroscope_streaming != des.gyroscope_streaming),
     ("varc", cur.magnetometer_streaming != des.magnetometer_streaming),
     ("varq", cur.quaternion_streaming != des.quaternion_streaming),
     ("vare", cur.euler_streaming != des.euler_streaming),
     ("varh", cur.heading_streaming != des.heading_streaming)].filter
       (fun p => p.2)).map Prod.fst)

/- ------------------------------------------------------------------ -/
/- Generic helper lemmas                                              -/
/- ------------------------------------------------------------------ -/

/-- A bit mask test on a natural number is exactly a testBit. -/
theorem mask_testBit (n i : Nat) : ((n &&& 2 ^ i) != 0) = n.testBit i := by
  rw [Nat.and_two_pow]
  cases h : n.testBit i
  · simp
  · have h2 : (2 : Nat) ^ i ≠ 0 := Nat.pos_iff_ne_zero.mp (Nat.pos_pow_of_pos i (by norm_num))
    simp [h2]

theorem getD_mem (l : List Nat) : ∀ i, i < l.length → l.getD i 0 ∈ l := by
  induction l with
  | nil => intro i h; simp at h
  | cons a t ih =>
    intro i h
    cases i with
    | zero => simp [List.getD]
    | succ i =>
      rw [List.getD_cons_succ]
      exact List.mem_cons_of_mem _ (ih i (by simpa using h))

theorem getD_take (l : List Nat) : ∀ (n i : Nat), i < n →
    (l.take n).getD i 0 = l.getD i 0 := by
  induction l with
  | nil => intro n i _; simp
  | cons a t ih =>
    intro n i h
    cases n with
    | zero => omega
    | succ n =>
      cases i with
      | zero => simp
      | succ i =>
        rw [List.take_succ_cons, List.getD_cons_succ, List.getD_cons_succ]
        exact ih n i (by omega)

theorem getD_drop_zero (l : List Nat) : ∀ k, (l.drop k).getD 0 0 = l.getD k 0 := by
  induction l with
  | nil => intro k; simp
  | cons a t ih =>
    intro k
    cases k with
    | zero => rfl
    | succ k => simpa using ih k

theorem motionWords_take (l : List Nat) (n : Nat) (h : 16 ≤ n) :
    motionWords (l.take n) = motionWords l := by
  unfold motionWords
  rw [getD_take l n 0 (by omega), getD_take l n 1 (by omega),
      getD_take l n 2 (by omega), getD_take l n 3 (by omega),
      getD_take l n 4 (by omega), getD_take l n 5 (by omega),
      getD_take l n 6 (by omega), getD_take l n 7 (by omega),
      getD_take l n 8 (by omega), getD_take l n 9 (by omega),
      getD_take l n 10 (by omega), getD_take l n 11 (by omega),
      getD_take l n 12 (by omega), getD_take l n 13 (by omega),
      getD_take l n 14 (by omega), getD_take l n 15 (by omega)]

/- ------------------------------------------------------------------ -/
/- Claim C4                                                           -/
/- ------------------------------------------------------------------ -/

/-- A concrete configuration with the basic_configuration resolutions
(gyro 2000, accel 2) and gyro streaming on. -/
def c4X : StatusConfig :=
  { magnetometer_enabled := false
    gyroscope_enabled := true
    accelerometer_enabled := false
    gyroscope_resolution := some 2000
    accelerometer_resolution := some 2
    low_output_rate := false
    heading_streaming := false
    euler_streaming := false
    magnetometer_streaming := false
    quaternion_streaming := false
    gyroscope_streaming := true
    accelerometer_streaming := false }

/-- Claim C4 counterexample: set_configuration(X, X) is not an empty command
sequence — the two absolute resolution commands var3 (gyro 2000) and var4
(accel 2) are always sent. -/
theorem c4_counterexample :
    set_configuration c4X c4X = Except.ok ["var3", "var4"] ∧
      ["var3", "var4"] ≠ ([] : List String) := by
  exact ⟨rfl, by decide⟩

/-- Claim C4 (amended): reconfiguring with the same configuration as current
and desired sends no toggle commands; exactly the two unconditional absolute
resolution-set commands (gyro first, then accelerometer) are emitted. -/
theorem c4_same_config (X : StatusConfig) (cg ca : String)
    (hg : set_gyro_resolution X.gyroscope_resolution = Except.ok cg)
    (ha : set_accelerometer_resolution X.accelerometer_resolution = Except.ok ca) :
    set_configuration X X = Except.ok [cg, ca] := by
  have ht : toggle_commands X X = [] := by
    simp [toggle_commands]
  rw [set_configuration, hg, ha, ht]
  rfl

/-- Claim C4 witness: the amended theorem at the concrete configuration c4X. -/
theorem c4_witness : set_configuration c4X c4X = Except.ok ["var3", "var4"] :=
  c4_same_config c4X "var3" "var4" rfl rfl

/- ------------------------------------------------------------------ -/
/- Claim C5                                                           -/
/- ------------------------------------------------------------------ -/

/-- The status payload 0x07 0x20 0x01 0x00 0x00 0x00 0x02 of the spec's
concrete scenario. -/
def c5_payload : List Nat := [7, 32, 1, 0, 0, 0, 2]

/-- Claim C5 counterexample: on that payload the parser yields accelerometer
enabled, magnetometer enabled and low_output_rate all true (status byte 0x07
has bits 0, 1 and 2 set and low-output byte 0x01 has bit 0 set), where the
claim demanded false for each of those three fields. -/
theorem c5_counterexample :
    (parse_status_message c5_payload).map
        (fun s => (s.accelerometer_enabled, s.magnetometer_enabled, s.low_output_rate)) =
      some (true, true, true) := by
  decide

/-- Claim C5 (amended): the payload 0x07 0x20 0x01 0x00 0x00 0x00 0x02 decodes
to magnetometer, gyroscope and accelerometer all enabled, gyro resolution 500,
accel resolution unknown, low_output_rate true, gyroscope streaming true and
all other streaming flags false. -/
theorem c5_status_scenario :
    parse_status_message c5_payload = some
      { magnetometer_enabled := true
        gyroscope_enabled := true
        accelerometer_enabled := true
        gyroscope_resolution := some 500
        accelerometer_resolution := none
        low_output_rate := true
        heading_streaming := false
        euler_streaming := false
        magnetometer_streaming := false
        quaternion_streaming := false
        gyroscope_streaming := true
        accelerometer_streaming := false } := by
  decide

/- ------------------------------------------------------------------ -/
/- Claim C7                                                           -/
/- ------------------------------------------------------------------ -/

theorem toggle_helper : ∀ b1 b2 b3 b4 b5 b6 : Bool,
    ((if b1 then ["vara"] else []) ++ (if b2 then ["varg"] else []) ++
     (if b3 then ["varc"] else []) ++ (if b4 then ["varq"] else []) ++
     (if b5 then ["vare"] else []) ++ (if b6 then ["varh"] else [])
       = (([("vara", b1), ("varg", b2), ("varc", b3), ("varq", b4),
            ("vare", b5), ("varh", b6)].filter (fun p => p.2)).map Prod.fst)) ∧
    (("vara" ∈ (if b1 then ["vara"] else []) ++ (if b2 then ["varg"] else []) ++
     (if b3 then ["varc"] else []) ++ (if b4 then ["varq"] else []) ++
     (if b5 then ["vare"] else []) ++ (if b6 then ["varh"] else [])) ↔ b1 = true) ∧
    (("varg" ∈ (if b1 then ["vara"] else []) ++ (if b2 then ["varg"] else []) ++
     (if b3 then ["varc"] else []) ++ (if b4 then ["varq"] else []) ++
     (if b5 then ["vare"] else []) ++ (if b6 then ["varh"] else [])) ↔ b2 = true) ∧
    (("varc" ∈ (if b1 then ["vara"] else []) ++ (if b2 then ["varg"] else []) ++
     (if b3 then ["varc"] else []) ++ (if b4 then ["varq"] else []) ++
     (if b5 then ["vare"] else []) ++ (if b6 then ["varh"] else [])) ↔ b3 = true) ∧
    (("varq" ∈ (if b1 then ["vara"] else []) ++ (if b2 then ["varg"] else []) ++
     (if b3 then ["varc"] else []) ++ (if b4 then ["varq"] else []) ++
     (if b5 then ["vare"] else []) ++ (if b6 then ["varh"] else [])) ↔ b4 = true) ∧
    (("vare" ∈ (if b1 then ["vara"] else []) ++ (if b2 then ["varg"] else []) ++
     (if b3 then ["varc"] else []) ++ (if b4 then ["varq"] else []) ++
     (if b5 then ["vare"] else []) ++ (if b6 then ["varh"] else [])) ↔ b5 = true) ∧
    (("varh" ∈ (if b1 then ["vara"] else []) ++ (if b2 then ["varg"] else []) ++
     (if b3 then ["varc"] else []) ++ (if b4 then ["varq"] else []) ++
     (if b5 then ["vare"] else []) ++ (if b6 then ["varh"] else [])) ↔ b6 = true) := by
  decide

/-- Claim C7: each of the six toggle commands is emitted iff the current and
desired values of its streaming flag differ, and the emitted commands appear
in the fixed order vara, varg, varc, varq, vare, varh (the emitted list equals
the fixed-order master list filtered to the differing flags). -/
theorem c7_toggle_iff_order (cur des : StatusConfig) :
    toggle_commands cur des = toggle_order_spec cur des ∧
    (("vara" ∈ toggle_commands cur des) ↔
      cur.accelerometer_streaming ≠ des.accelerometer_streaming) ∧
    (("varg" ∈ toggle_commands cur des) ↔
      cur.gyroscope_streaming ≠ des.gyroscope_streaming) ∧
    (("varc" ∈ toggle_commands cur des) ↔
      cur.magnetometer_streaming ≠ des.magnetometer_streaming) ∧
    (("varq" ∈ toggle_commands cur des) ↔
      cur.quaternion_streaming ≠ des.quaternion_streaming) ∧
    (("vare" ∈ toggle_commands cur des) ↔
      cur.euler_streaming ≠ des.euler_streaming) ∧
    (("varh" ∈ toggle_commands cur des) ↔
      cur.heading_streaming ≠ des.heading_streaming) := by
  have h := toggle_helper
    (cur.accelerometer_streaming != des.accelerometer_streaming)
    (cur.gyroscope_streaming != des.gyroscope_streaming)
    (cur.magnetometer_streaming != des.magnetometer_streaming)
    (cur.quaternion_streaming != des.quaternion_streaming)
    (cur.euler_streaming != des.euler_streaming)
    (cur.heading_streaming != des.heading_streaming)
  obtain ⟨h0, h1, h2, h3, h4, h5, h6⟩ := h
  refine ⟨h0, ?_, ?_, ?_, ?_, ?_, ?_⟩
  · exact h1.trans bne_iff_ne
  · exact h2.trans bne_iff_ne
  · exact h3.trans bne_iff_ne
  · exact h4.trans bne_iff_ne
  · exact h5.trans bne_iff_ne
  · exact h6.trans bne_iff_ne

/- ------------------------------------------------------------------ -/
/- Claim C8                                                           -/
/- ------------------------------------------------------------------ -/

/-- Claim C8: motion decoding fails iff the payload is shorter than 16 bytes
and reads only the first 16 bytes (as the big-endian u32 timestamp and three
big-endian 32-bit float patterns); status decoding fails iff the payload is
shorter than 7 bytes. -/
theorem c8_decode_lengths (p : List Nat) :
    ((decode_motion p).isNone ↔ p.length < 16) ∧
    decode_motion p = decode_motion (List.take 16 p) ∧
    ((parse_status_message p).isNone ↔ p.length < 7) := by
  refine ⟨?_, ?_, ?_⟩
  · by_cases h : 16 ≤ p.length <;> simp [decode_motion, h] <;> omega
  · by_cases h : 16 ≤ p.length
    · have hlen : 16 ≤ (p.take 16).length := by
        rw [List.length_take]; omega
      rw [decode_motion, decode_motion, if_pos h, if_pos hlen,
          motionWords_take p 16 (by omega)]
    · have hlen : ¬ 16 ≤ (p.take 16).length := by
        rw [List.length_take]; omega
      rw [decode_motion, decode_motion, if_neg h, if_neg hlen]
  · by_cases h : 7 ≤ p.length <;> simp [parse_status_message, h] <;> omega

/- ------------------------------------------------------------------ -/
/- Claim C10                                                          -/
/- ------------------------------------------------------------------ -/

/-- Claim C10: the resolution decoders are total on every byte: with several
bits set in a nibble the highest-order set bit wins (2000 > 1000 > 500 > 250
and 16 > 8 > 4 > 2), an all-zero nibble yields none (unknown), and the status
parser never fails on a payload of at least 7 bytes. -/
theorem c10_resolution_total :
    (∀ res, res < 256 →
      (res &&& 240 = 0 → gyro_res_of res = none) ∧
      (res.testBit 7 → gyro_res_of res = some 2000) ∧
      (¬ res.testBit 7 → res.testBit 6 → gyro_res_of res = some 1000) ∧
      (¬ res.testBit 7 → ¬ res.testBit 6 → res.testBit 5 →
        gyro_res_of res = some 500) ∧
      (¬ res.testBit 7 → ¬ res.testBit 6 → ¬ res.testBit 5 → res.testBit 4 →
        gyro_res_of res = some 250) ∧
      (res &&& 15 = 0 → acc_res_of res = none) ∧
      (res.testBit 3 → acc_res_of res = some 16) ∧
      (¬ res.testBit 3 → res.testBit 2 → acc_res_of res = some 8) ∧
      (¬ res.testBit 3 → ¬ res.testBit 2 → res.testBit 1 →
        acc_res_of res = some 4) ∧
      (¬ res.testBit 3 → ¬ res.testBit 2 → ¬ res.testBit 1 → res.testBit 0 →
        acc_res_of res = some 2)) ∧
    (∀ msg : List Nat, 7 ≤ msg.length → (parse_status_message msg).isSome) := by
  constructor
  · decide
  · intro msg h
    simp [parse_status_message, h]

/-- Claim C10 witness: the theorem applied at the multi-bit resolution byte
0xB5 = 0b10110101 (gyro nibble 1011 gives 2000, accel nibble 0101 gives 8)
and a concrete 7-byte payload. -/
theorem c10_witness :
    gyro_res_of 181 = some 2000 ∧ acc_res_of 181 = some 8 ∧
      (parse_status_message [1, 181, 0, 0, 0, 0, 0]).isSome := by
  refine ⟨?_, ?_, ?_⟩
  · exact ((c10_resolution_total.1 181 (by decide)).2.1 (by decide))
  · exact ((c10_resolution_total.1 181 (by decide)).2.2.2.2.2.2.2.1 (by decide) (by decide))
  · exact (c10_resolution_total.2 [1, 181, 0, 0, 0, 0, 0] (by decide))

/- ------------------------------------------------------------------ -/
/- Claim C6                                                           -/
/- ------------------------------------------------------------------ -/

theorem mask_one (n : Nat) : ((n &&& 1) != 0) = n.testBit 0 := by
  rw [show (1 : Nat) = 2 ^ 0 by norm_num]
  exact mask_testBit n 0

theorem mask_two (n : Nat) : ((n &&& 2) != 0) = n.testBit 1 := by
  rw [show (2 : Nat) = 2 ^ 1 by norm_num]
  exact mask_testBit n 1

theorem mask_four (n : Nat) : ((n &&& 4) != 0) = n.testBit 2 := by
  rw [show (4 : Nat) = 2 ^ 2 by norm_num]
  exact mask_testBit n 2

theorem mask_eight (n : Nat) : ((n &&& 8) != 0) = n.testBit 3 := by
  rw [show (8 : Nat) = 2 ^ 3 by norm_num]
  exact mask_testBit n 3

theorem mask_sixteen (n : Nat) : ((n &&& 16) != 0) = n.testBit 4 := by
  rw [show (16 : Nat) = 2 ^ 4 by norm_num]
  exact mask_testBit n 4

theorem mask_sixtyfour (n : Nat) : ((n &&& 64) != 0) = n.testBit 6 := by
  rw [show (64 : Nat) = 2 ^ 6 by norm_num]
  exact mask_testBit n 6

/-- One-hot (and general) decoding facts for the two resolution nibbles of a
status byte, checked over all 256 byte values. -/
theorem res_nibble_table : ∀ res, res < 256 →
    (((res >>> 4) &&& 15 = 8 → gyro_res_of res = some 2000) ∧
     ((res >>> 4) &&& 15 = 4 → gyro_res_of res = some 1000) ∧
     ((res >>> 4) &&& 15 = 2 → gyro_res_of res = some 500) ∧
     ((res >>> 4) &&& 15 = 1 → gyro_res_of res = some 250) ∧
     (res &&& 15 = 8 → acc_res_of res = some 16) ∧
     (res &&& 15 = 4 → acc_res_of res = some 8) ∧
     (res &&& 15 = 2 → acc_res_of res = some 4) ∧
     (res &&& 15 = 1 → acc_res_of res = some 2)) := by
  decide

/-- Claim C6: for every status payload of at least 7 bytes (of bytes), the
parser decodes the bitfields per the documented table: byte 0 bits 2/1/0 are
the magnetometer/gyroscope/accelerometer enables, the one-hot high and low
nibbles of byte 1 give the gyro and accel resolutions, byte 2 bit 0 is the
low-output-rate flag, and bits 6/4/3/2/1/0 of the big-endian 32-bit word at
bytes 3-6 are the heading/euler/magnetometer/quaternion/gyroscope/
accelerometer streaming flags. -/
theorem c6_status_bits (msg : List Nat) (h7 : 7 ≤ msg.length)
    (hb : ∀ b ∈ msg, b < 256) :
    ∃ s, parse_status_message msg = some s ∧
      s.magnetometer_enabled = (msg.getD 0 0).testBit 2 ∧
      s.gyroscope_enabled = (msg.getD 0 0).testBit 1 ∧
      s.accelerometer_enabled = (msg.getD 0 0).testBit 0 ∧
      (((msg.getD 1 0) >>> 4) &&& 15 = 8 → s.gyroscope_resolution = some 2000) ∧
      (((msg.getD 1 0) >>> 4) &&& 15 = 4 → s.gyroscope_resolution = some 1000) ∧
      (((msg.getD 1 0) >>> 4) &&& 15 = 2 → s.gyroscope_resolution = some 500) ∧
      (((msg.getD 1 0) >>> 4) &&& 15 = 1 → s.gyroscope_resolution = some 250) ∧
      ((msg.getD 1 0) &&& 15 = 8 → s.accelerometer_resolution = some 16) ∧
      ((msg.getD 1 0) &&& 15 = 4 → s.accelerometer_resolution = some 8) ∧
      ((msg.getD 1 0) &&& 15 = 2 → s.accelerometer_resolution = some 4) ∧
      ((msg.getD 1 0) &&& 15 = 1 → s.accelerometer_resolution = some 2) ∧
      s.low_output_rate = (msg.getD 2 0).testBit 0 ∧
      s.heading_streaming =
        (beWord (msg.getD 3 0) (msg.getD 4 0) (msg.getD 5 0) (msg.getD 6 0)).testBit 6 ∧
      s.euler_streaming =
        (beWord (msg.getD 3 0) (msg.getD 4 0) (msg.getD 5 0) (msg.getD 6 0)).testBit 4 ∧
      s.magnetometer_streaming =
        (beWord (msg.getD 3 0) (msg.getD 4 0) (msg.getD 5 0) (msg.getD 6 0)).testBit 3 ∧
      s.quaternion_streaming =
        (beWord (msg.getD 3 0) (msg.getD 4 0) (msg.getD 5 0) (msg.getD 6 0)).testBit 2 ∧
      s.gyroscope_streaming =
        (beWord (msg.getD 3 0) (msg.getD 4 0) (msg.getD 5 0) (msg.getD 6 0)).testBit 1 ∧
      s.accelerometer_streaming =
        (beWord (msg.getD 3 0) (msg.getD 4 0) (msg.getD 5 0) (msg.getD 6 0)).testBit 0 := by
  have hres : msg.getD 1 0 < 256 := hb _ (getD_mem msg 1 (by omega))
  have ht := res_nibble_table (msg.getD 1 0) hres
  rw [parse_status_message, if_pos h7]
  exact ⟨_, rfl, mask_four _, mask_two _, mask_one _,
    ht.1, ht.2.1, ht.2.2.1, ht.2.2.2.1,
    ht.2.2.2.2.1, ht.2.2.2.2.2.1, ht.2.2.2.2.2.2.1, ht.2.2.2.2.2.2.2,
    mask_one _, mask_sixtyfour _, mask_sixteen _, mask_eight _,
    mask_four _, mask_two _, mask_one _⟩

/-- Concrete status payload for the C6 witness: gyro enabled, gyro resolution
250 (one-hot nibble 0001), accel resolution unknown, heading and accelerometer
streaming set (word 0x41). -/
def c6_msg : List Nat := [2, 16, 0, 0, 0, 0, 65]

/-- Claim C6 witness: the bitfield theorem applied at the concrete payload
c6_msg, with both hypotheses discharged by computation. -/
theorem c6_witness :
    ∃ s, parse_status_message c6_msg = some s ∧
      s.magnetometer_enabled = (c6_msg.getD 0 0).testBit 2 ∧
      s.gyroscope_enabled = (c6_msg.getD 0 0).testBit 1 ∧
      s.accelerometer_enabled = (c6_msg.getD 0 0).testBit 0 ∧
      (((c6_msg.getD 1 0) >>> 4) &&& 15 = 8 → s.gyroscope_resolution = some 2000) ∧
      (((c6_msg.getD 1 0) >>> 4) &&& 15 = 4 → s.gyroscope_resolution = some 1000) ∧
      (((c6_msg.getD 1 0) >>> 4) &&& 15 = 2 → s.gyroscope_resolution = some 500) ∧
      (((c6_msg.getD 1 0) >>> 4) &&& 15 = 1 → s.gyroscope_resolution = some 250) ∧
      ((c6_msg.getD 1 0) &&& 15 = 8 → s.accelerometer_resolution = some 16) ∧
      ((c6_msg.getD 1 0) &&& 15 = 4 → s.accelerometer_resolution = some 8) ∧
      ((c6_msg.getD 1 0) &&& 15 = 2 → s.accelerometer_resolution = some 4) ∧
      ((c6_msg.getD 1 0) &&& 15 = 1 → s.accelerometer_resolution = some 2) ∧
      s.low_output_rate = (c6_msg.getD 2 0).testBit 0 ∧
      s.heading_streaming =
        (beWord (c6_msg.getD 3 0) (c6_msg.getD 4 0) (c6_msg.getD 5 0) (c6_msg.getD 6 0)).testBit 6 ∧
      s.euler_streaming =
        (beWord (c6_msg.getD 3 0) (c6_msg.getD 4 0) (c6_msg.getD 5 0) (c6_msg.getD 6 0)).testBit 4 ∧
      s.magnetometer_streaming =
        (beWord (c6_msg.getD 3 0) (c6_msg.getD 4 0) (c6_msg.getD 5 0) (c6_msg.getD 6 0)).testBit 3 ∧
      s.quaternion_streaming =
        (beWord (c6_msg.getD 3 0) (c6_msg.getD 4 0) (c6_msg.getD 5 0) (c6_msg.getD 6 0)).testBit 2 ∧
      s.gyroscope_streaming =
        (beWord (c6_msg.getD 3 0) (c6_msg.getD 4 0) (c6_msg.getD 5 0) (c6_msg.getD 6 0)).testBit 1 ∧
      s.accelerometer_streaming =
        (beWord (c6_msg.getD 3 0) (c6_msg.getD 4 0) (c6_msg.getD 5 0) (c6_msg.getD 6 0)).testBit 0 :=
  c6_status_bits c6_msg (by decide) (by decide)

/- ------------------------------------------------------------------ -/
/- The frame scanner of VMU931CDCDriver.get_vmu_packet                -/
/- ------------------------------------------------------------------ -/

/-- Result of one pass of get_vmu_packet's for-loop over the buffer:
a decoded wanted frame, an uncaught struct.error (payload of a matched frame
shorter than 16 bytes), or the working buffer left for the next while-loop
iteration. -/
inductive PassResult where
  | found : Nat × Nat × Nat × Nat → PassResult
  | crash : PassResult
  | cont : List Nat → PassResult
deriving DecidableEq, Repr

/-- The index i + 3 + message_size (with message_size = data[i+1] - 4, as a
Python int, possibly negative) used by get_vmu_packet for the terminator
lookup, the payload slice and the buffer reassignment. -/
def endIx (i : Nat) (cur : List Nat) : Int :=
  (i : Int) + 3 + ((cur.getD (i + 1) 0 : Int) - 4)

/-- One pass of get_vmu_packet's scan: for i, c in enumerate(data).  The
iteration (index i and the tested byte c) runs over the buffer as it was when
the loop started (orig), but the body indexes the current binding of data
(cur), which the wrong-frame branch reassigns to data[i+3+message_size:]
without breaking out of the loop.  An IndexError on the terminator lookup
empties the buffer and breaks (cont []). -/
def scanLoop (orig : List Nat) (wanted : Nat) : Nat → Nat → List Nat → PassResult
  | 0, _, cur => PassResult.cont cur
  | fuel + 1, i, cur =>
    if orig.getD i 0 = 1 ∧ 20 < cur.length - i then
      match pyGet cur (endIx i cur) with
      | none => PassResult.cont []
      | some message_end =>
        if message_end = 4 ∧ cur.getD (i + 2) 0 = wanted then
          match decode_motion (pySlice cur ((i : Int) + 3) (endIx i cur)) with
          | some r => PassResult.found r
          | none => PassResult.crash
        else
          scanLoop orig wanted fuel (i + 1) (pyTail cur (endIx i cur))
    else
      scanLoop orig wanted fuel (i + 1) cur

/-- One full pass of the for-loop over a buffer: every index of the starting
buffer is visited once (fuel = length), starting with data bound to it. -/
def scanPass (data : List Nat) (wanted : Nat) : PassResult :=
  scanLoop data wanted data.length 0 data

/-- The claim's notion of a valid wanted frame at position p of a buffer:
start marker 0x01, more than 20 bytes from the marker on, wanted type tag,
declared length at least 4 and in bounds, terminator byte 0x04. -/
def WantedFrameAt (buf : List Nat) (p w : Nat) : Prop :=
  buf.getD p 0 = 1 ∧ 20 < buf.length - p ∧ buf.getD (p + 2) 0 = w ∧
  4 ≤ buf.getD (p + 1) 0 ∧ p + buf.getD (p + 1) 0 ≤ buf.length ∧
  buf.getD (p + buf.getD (p + 1) 0 - 1) 0 = 4

instance (buf : List Nat) (p w : Nat) : Decidable (WantedFrameAt buf p w) := by
  unfold WantedFrameAt
  infer_instance

/- Step lemmas for scanLoop. -/

theorem scanLoop_succ_skip (orig : List Nat) (w fuel i : Nat) (cur : List Nat)
    (h : ¬(orig.getD i 0 = 1 ∧ 20 < cur.length - i)) :
    scanLoop orig w (fuel + 1) i cur = scanLoop orig w fuel (i + 1) cur := by
  rw [scanLoop, if_neg h]

theorem scanLoop_succ_drop (orig : List Nat) (w fuel i : Nat) (cur : List Nat)
    (mend : Nat)
    (hg : orig.getD i 0 = 1) (hl : 20 < cur.length - i)
    (hget : pyGet cur (endIx i cur) = some mend)
    (hne : ¬(mend = 4 ∧ cur.getD (i + 2) 0 = w)) :
    scanLoop orig w (fuel + 1) i cur
      = scanLoop orig w fuel (i + 1) (pyTail cur (endIx i cur)) := by
  rw [scanLoop, if_pos ⟨hg, hl⟩]
  simp only [hget]
  rw [if_neg hne]

theorem scanLoop_succ_found (orig : List Nat) (w fuel i : Nat) (cur : List Nat)
    (r : Nat × Nat × Nat × Nat)
    (hg : orig.getD i 0 = 1) (hl : 20 < cur.length - i)
    (hget : pyGet cur (endIx i cur) = some 4)
    (hty : cur.getD (i + 2) 0 = w)
    (hdec : decode_motion (pySlice cur ((i : Int) + 3) (endIx i cur)) = some r) :
    scanLoop orig w (fuel + 1) i cur = PassResult.found r := by
  rw [scanLoop, if_pos ⟨hg, hl⟩]
  simp only [hget]
  rw [if_pos ⟨trivial, hty⟩]
  rw [hdec]

theorem scanLoop_skip (orig : List Nat) (w : Nat) :
    ∀ (n fuel i : Nat) (cur : List Nat),
      (∀ k, k < n → orig.getD (i + k) 0 ≠ 1) →
      scanLoop orig w (n + fuel) i cur = scanLoop orig w fuel (i + n) cur := by
  intro n
  induction n with
  | zero =>
    intro fuel i cur _
    rw [Nat.zero_add, Nat.add_zero]
  | succ n ih =>
    intro fuel i cur h
    have h0 : orig.getD i 0 ≠ 1 := by
      have := h 0 (by omega)
      simpa using this
    have e1 : n + 1 + fuel = (n + fuel) + 1 := by omega
    rw [e1, scanLoop_succ_skip orig w (n + fuel) i cur (fun hc => h0 hc.1)]
    have e2 : i + (n + 1) = (i + 1) + n := by omega
    rw [e2]
    exact ih fuel (i + 1) cur (fun k hk => by
      have h2 := h (k + 1) (by omega)
      have e3 : i + (k + 1) = i + 1 + k := by omega
      rw [e3] at h2
      exact h2)

/- Computation lemmas for the Python helpers on in-range nonnegative indices. -/

theorem pyGet_inbounds (l : List Nat) (k : Int) (h0 : 0 ≤ k)
    (hlt : k.toNat < l.length) :
    pyGet l k = some (l.getD k.toNat 0) := by
  rw [pyGet, if_pos h0, if_pos hlt]

theorem pyTail_nonneg (l : List Nat) (k : Int) (h0 : 0 ≤ k)
    (hle : k.toNat ≤ l.length) :
    pyTail l k = l.drop k.toNat := by
  rw [pyTail, pyBound, if_neg (by omega), Nat.min_eq_left hle]

theorem pySlice_nonneg (l : List Nat) (a b : Int) (h0 : 0 ≤ a) (hab : a ≤ b)
    (hbl : b.toNat ≤ l.length) :
    pySlice l a b = (l.drop a.toNat).take (b.toNat - a.toNat) := by
  rw [pySlice, pyBound, pyBound, if_neg (by omega), if_neg (by omega),
      Nat.min_eq_left hbl, Nat.min_eq_left (show a.toNat ≤ l.length by omega)]

theorem endIx_toNat (i : Nat) (cur : List Nat) (h4 : 4 ≤ cur.getD (i + 1) 0) :
    0 ≤ endIx i cur ∧ (endIx i cur).toNat = i + cur.getD (i + 1) 0 - 1 := by
  unfold endIx
  constructor <;> omega

/- ------------------------------------------------------------------ -/
/- Claim C1                                                           -/
/- ------------------------------------------------------------------ -/

/-- A buffer whose first two bytes are a spurious start marker 0x01 with
declared-length byte 0xFF, followed by a complete valid 'g' (0x67 = 103)
frame at position 2 with a 16-byte payload and one trailing byte. -/
def c1_buf : List Nat :=
  [1, 255, 1, 20, 103, 10, 11, 12, 13, 14, 15, 16, 17, 18, 19, 20, 21, 22,
   23, 24, 25, 4, 0]

/-- Claim C1 counterexample: c1_buf holds a valid wanted frame at position 2
with more than 20 bytes from the marker on, yet the scan pass never returns
it: the spurious candidate at position 0 declares a length that points past
the end of the buffer, so the IndexError handler throws the whole buffer away
(the pass ends with an empty working buffer and no frame). -/
theorem c1_counterexample :
    WantedFrameAt c1_buf 2 103 ∧ scanPass c1_buf 103 = PassResult.cont [] := by
  constructor
  · decide
  · decide

/-- Claim C1 (amended): a valid wanted frame at position p (with more than 20
bytes from its marker on and a payload of at least 16 bytes) is returned by
the scan pass provided no byte before p equals 0x01; the returned content is
the timestamp and three float words of the payload. -/
theorem c1_frame_recovery (orig : List Nat) (p w : Nat)
    (hfr : WantedFrameAt orig p w)
    (hsz : 20 ≤ orig.getD (p + 1) 0)
    (hpre : ∀ j, j < p → orig.getD j 0 ≠ 1) :
    scanPass orig w = PassResult.found (motionWords (orig.drop (p + 3))) := by
  obtain ⟨h1, h2, h3, h4, h5, h6⟩ := hfr
  have hplen : p < orig.length := by omega
  have hsplit : orig.length = p + (orig.length - p) := by omega
  have hskip := scanLoop_skip orig w p (orig.length - p) 0 orig
    (fun k hk => by
      have := hpre k hk
      simpa using this)
  rw [scanPass, hsplit, hskip, Nat.zero_add]
  obtain ⟨m, hm⟩ : ∃ m, orig.length - p = m + 1 := ⟨orig.length - p - 1, by omega⟩
  rw [hm]
  obtain ⟨hnn, htn⟩ := endIx_toNat p orig h4
  have hlt : (endIx p orig).toNat < orig.length := by omega
  have hget : pyGet orig (endIx p orig) = some 4 := by
    rw [pyGet_inbounds orig (endIx p orig) hnn hlt, htn, h6]
  have ha0 : (0 : Int) ≤ (p : Int) + 3 := by omega
  have hslice : pySlice orig ((p : Int) + 3) (endIx p orig)
      = (orig.drop (p + 3)).take (orig.getD (p + 1) 0 - 4) := by
    rw [pySlice_nonneg orig ((p : Int) + 3) (endIx p orig) ha0 (by unfold endIx; omega) (by omega)]
    rw [htn]
    have e1 : ((p : Int) + 3).toNat = p + 3 := by omega
    rw [e1]
    have e2 : p + orig.getD (p + 1) 0 - 1 - (p + 3) = orig.getD (p + 1) 0 - 4 := by omega
    rw [e2]
  have hmsglen : ((orig.drop (p + 3)).take (orig.getD (p + 1) 0 - 4)).length
      = orig.getD (p + 1) 0 - 4 := by
    rw [List.length_take, List.length_drop]
    omega
  have hdec : decode_motion (pySlice orig ((p : Int) + 3) (endIx p orig))
      = some (motionWords (orig.drop (p + 3))) := by
    rw [hslice, decode_motion, if_pos (by rw [hmsglen]; omega),
        motionWords_take _ _ (by omega)]
  exact scanLoop_succ_found orig w m p orig (motionWords (orig.drop (p + 3)))
    h1 (by omega) hget h3 hdec

/-- The counterexample buffer with the poisonous prefix replaced by two
harmless zero bytes; same frame at position 2. -/
def c1_wbuf : List Nat :=
  [0, 0, 1, 20, 103, 10, 11, 12, 13, 14, 15, 16, 17, 18, 19, 20, 21, 22,
   23, 24, 25, 4, 0]

/-- Claim C1 witness: the amended theorem at the concrete buffer c1_wbuf. -/
theorem c1_witness :
    scanPass c1_wbuf 103 = PassResult.found (motionWords (List.drop 5 c1_wbuf)) :=
  c1_frame_recovery c1_wbuf 2 103 (by decide) (by decide) (by decide)

/- ------------------------------------------------------------------ -/
/- Claim C2                                                           -/
/- ------------------------------------------------------------------ -/

/-- A buffer whose only candidate is a spurious start marker at position 0:
declared length 10, tentative terminator at index 9 holding 99 (not 0x04),
no other 0x01 anywhere. -/
def c2_buf : List Nat :=
  [1, 10, 50, 51, 52, 53, 54, 55, 60, 99, 0, 0, 0, 0, 0, 0, 0, 0, 0, 0, 0, 0, 0]

/-- Claim C2 counterexample: processing the spurious candidate at position 0
(terminator position 9 holds 99, not 0x04) leaves the buffer cut at the
tentative terminator position — nine bytes are discarded, not just the single
spurious start-marker byte the claim allows. -/
theorem c2_counterexample :
    c2_buf.getD 0 0 = 1 ∧ 20 < c2_buf.length ∧ c2_buf.getD 9 0 ≠ 4 ∧
      scanPass c2_buf 103 = PassResult.cont (List.drop 9 c2_buf) ∧
      List.drop 9 c2_buf ≠ List.drop 1 c2_buf := by
  refine ⟨by decide, by decide, by decide, by decide, by decide⟩

/-- The shared wrong-frame step: at a candidate whose in-range tentative
terminator byte and type tag do not both match (so either the terminator is
not 0x04 or the type is not the wanted one), the pass continues at the next
index with the working buffer cut at the tentative terminator position. -/
theorem scanLoop_wrong_frame (orig cur : List Nat) (w fuel i : Nat)
    (hg : orig.getD i 0 = 1) (hl : 20 < cur.length - i)
    (hb4 : 4 ≤ cur.getD (i + 1) 0)
    (hinb : i + cur.getD (i + 1) 0 ≤ cur.length)
    (hne : ¬(cur.getD (i + cur.getD (i + 1) 0 - 1) 0 = 4 ∧ cur.getD (i + 2) 0 = w)) :
    scanLoop orig w (fuel + 1) i cur
      = scanLoop orig w fuel (i + 1)
          (List.drop (i + cur.getD (i + 1) 0 - 1) cur) := by
  obtain ⟨hnn, htn⟩ := endIx_toNat i cur hb4
  have hlt : (endIx i cur).toNat < cur.length := by omega
  have hget : pyGet cur (endIx i cur)
      = some (cur.getD (i + cur.getD (i + 1) 0 - 1) 0) := by
    rw [pyGet_inbounds cur (endIx i cur) hnn hlt, htn]
  have hstep := scanLoop_succ_drop orig w fuel i cur
    (cur.getD (i + cur.getD (i + 1) 0 - 1) 0) hg hl hget hne
  rw [hstep, pyTail_nonneg cur (endIx i cur) hnn (by omega), htn]

/-- Claim C2 (amended): at a candidate start marker whose in-range tentative
terminator byte is not 0x04, the scan does resume from the next index of the
iteration buffer, but the working buffer is reassigned to the suffix starting
at the tentative terminator position — the tentatively-read length, type and
payload bytes are discarded from it, exactly as for a valid frame of the
wrong type. -/
theorem c2_spurious_resync (orig cur : List Nat) (w fuel i : Nat)
    (hg : orig.getD i 0 = 1) (hl : 20 < cur.length - i)
    (hb4 : 4 ≤ cur.getD (i + 1) 0)
    (hinb : i + cur.getD (i + 1) 0 ≤ cur.length)
    (hterm : cur.getD (i + cur.getD (i + 1) 0 - 1) 0 ≠ 4) :
    scanLoop orig w (fuel + 1) i cur
      = scanLoop orig w fuel (i + 1)
          (List.drop (i + cur.getD (i + 1) 0 - 1) cur) :=
  scanLoop_wrong_frame orig cur w fuel i hg hl hb4 hinb (fun hc => hterm hc.1)

/-- Claim C2 witness: the amended theorem at the concrete buffer c2_buf
(one step from index 0 with fuel 22: the working buffer loses the whole
tentative span, scanning resumes at index 1). -/
theorem c2_witness :
    scanLoop c2_buf 103 23 0 c2_buf
      = scanLoop c2_buf 103 22 1 (List.drop 9 c2_buf) :=
  c2_spurious_resync c2_buf c2_buf 103 22 0 (by decide) (by decide) (by decide)
    (by decide) (by decide)

/- ------------------------------------------------------------------ -/
/- Claim C3                                                           -/
/- ------------------------------------------------------------------ -/

/-- A buffer holding a single valid frame of type 'a' (97) at position 0 with
a 16-byte payload, terminator 0x04 at index 19, one trailing byte, and no
other 0x01 anywhere. -/
def c3_buf : List Nat :=
  [1, 20, 97, 10, 11, 12, 13, 14, 15, 16, 17, 18, 19, 20, 21, 22, 23, 24, 25, 4, 0]

/-- Claim C3 counterexample: scanning past the wrong-type valid frame at
position 0 leaves the buffer starting at index 19 — the terminator byte 0x04
itself stays at the head of the retained buffer, so the consumed span is
start..terminator exclusive, not inclusive as the claim states. -/
theorem c3_counterexample :
    scanPass c3_buf 103 = PassResult.cont (List.drop 19 c3_buf) ∧
      (List.drop 19 c3_buf).getD 0 0 = 4 ∧
      List.drop 19 c3_buf ≠ List.drop 20 c3_buf := by
  refine ⟨by decide, by decide, by decide⟩

/-- Claim C3 (amended): for a buffer whose only candidate start marker is at
position i and heads a valid frame of the wrong type, the pass drops the span
from the start marker up to but excluding the terminator byte: the retained
buffer is the suffix starting at the terminator position, whose head is the
0x04 terminator itself. -/
theorem c3_wrong_type_drop (orig : List Nat) (i w : Nat)
    (hpre : ∀ j, j < i → orig.getD j 0 ≠ 1)
    (hg : orig.getD i 0 = 1) (hl : 20 < orig.length - i)
    (hb4 : 4 ≤ orig.getD (i + 1) 0)
    (hinb : i + orig.getD (i + 1) 0 ≤ orig.length)
    (hterm : orig.getD (i + orig.getD (i + 1) 0 - 1) 0 = 4)
    (hty : orig.getD (i + 2) 0 ≠ w)
    (hpost : ∀ k, k < orig.length - (i + 1) → orig.getD (i + 1 + k) 0 ≠ 1) :
    scanPass orig w
      = PassResult.cont (List.drop (i + orig.getD (i + 1) 0 - 1) orig) ∧
      (List.drop (i + orig.getD (i + 1) 0 - 1) orig).getD 0 0 = 4 := by
  constructor
  · have hilen : i < orig.length := by omega
    have hsplit : orig.length = i + (orig.length - i) := by omega
    have hskip := scanLoop_skip orig w i (orig.length - i) 0 orig
      (fun k hk => by
        have := hpre k hk
        simpa using this)
    rw [scanPass, hsplit, hskip, Nat.zero_add]
    obtain ⟨m, hm⟩ : ∃ m, orig.length - i = m + 1 := ⟨orig.length - i - 1, by omega⟩
    rw [hm]
    rw [scanLoop_wrong_frame orig orig w m i hg (by omega) hb4 hinb
      (fun hc => hty hc.2)]
    have hskip2 := scanLoop_skip orig w m 0 (i + 1)
      (List.drop (i + orig.getD (i + 1) 0 - 1) orig)
      (fun k hk => hpost k (by omega))
    rw [Nat.add_zero] at hskip2
    rw [hskip2]
    rfl
  · rw [getD_drop_zero]
    exact hterm

/-- Claim C3 witness: the amended theorem at the concrete buffer c3_buf. -/
theorem c3_witness :
    scanPass c3_buf 103 = PassResult.cont (List.drop 19 c3_buf) ∧
      (List.drop 19 c3_buf).getD 0 0 = 4 :=
  c3_wrong_type_drop c3_buf 0 103 (by decide) (by decide) (by decide) (by decide)
    (by decide) (by decide) (by decide) (by decide)

/- ------------------------------------------------------------------ -/
/- Claim C9                                                           -/
/- ------------------------------------------------------------------ -/

/-- Outcome of VMU931CDCDriver.get_vmu_packet: a decoded frame, an uncaught
exception, or the bare return (None) taken when iter_count exceeds 5000. -/
inductive VmuResult where
  | success : Nat × Nat × Nat × Nat → VmuResult
  | crashed : VmuResult
  | timeout : VmuResult
deriving DecidableEq, Repr

/-- The while-loop of get_vmu_packet: each iteration first bumps iter_count
and bails out (None) past 5000, then extends the buffer with the next
transport read and runs one scan pass over it. -/
def vmuLoop (reads : Nat → List Nat) (wanted : Nat) : Nat → Nat → List Nat → VmuResult
  | 0, _, _ => VmuResult.timeout
  | fuel + 1, iter, data =>
    match scanPass (data ++ reads iter) wanted with
    | PassResult.found r => VmuResult.success r
    | PassResult.crash => VmuResult.crashed
    | PassResult.cont d2 => vmuLoop reads wanted fuel (iter + 1) d2

/-- VMU931CDCDriver.get_vmu_packet over a connected device: starts with an
empty buffer and at most 5000 read-and-scan iterations. -/
def get_vmu_packet (reads : Nat → List Nat) (wanted : Nat) : VmuResult :=
  vmuLoop reads wanted 5000 0 []

/-- Whether a pass outcome is the continue case — the only case in which
get_vmu_packet's while-loop keeps going (no wanted frame matched, no
uncaught struct.error). -/
def PassResult.isCont : PassResult → Bool
  | PassResult.cont _ => true
  | _ => false

/-- The buffer held by get_vmu_packet's loop at the start of each iteration:
empty before iteration 0, and afterwards whatever the scan pass over the
extended buffer left behind (junk once the loop has terminated). -/
def vmuTrace (reads : Nat → List Nat) (wanted : Nat) : Nat → List Nat
  | 0 => []
  | k + 1 =>
    match scanPass (vmuTrace reads wanted k ++ reads k) wanted with
    | PassResult.cont d => d
    | _ => []

theorem vmuLoop_trace_timeout (reads : Nat → List Nat) (w : Nat) :
    ∀ (n j : Nat),
      (∀ k, j ≤ k → k < j + n →
        (scanPass (vmuTrace reads w k ++ reads k) w).isCont = true) →
      vmuLoop reads w n j (vmuTrace reads w j) = VmuResult.timeout := by
  intro n
  induction n with
  | zero => intro j _; rfl
  | succ n ih =>
    intro j h
    have hj := h j (Nat.le_refl j) (by omega)
    obtain ⟨d, hd⟩ : ∃ d, scanPass (vmuTrace reads w j ++ reads j) w
        = PassResult.cont d := by
      cases hres : scanPass (vmuTrace reads w j ++ reads j) w with
      | found r => rw [hres] at hj; simp [PassResult.isCont] at hj
      | crash => rw [hres] at hj; simp [PassResult.isCont] at hj
      | cont d => exact ⟨d, rfl⟩
    have htr : vmuTrace reads w (j + 1) = d := by
      rw [vmuTrace, hd]
    have hrec := ih (j + 1) (fun k hk1 hk2 => h k (by omega) (by omega))
    rw [htr] at hrec
    rw [vmuLoop, hd]
    exact hrec

/-- Claim C9 (amended): get_vmu_packet's loop is capped at 5000 read-and-scan
iterations: for every read sequence on which no wanted frame appears — that
is, every stream (start-marker bytes, corrupt candidates and all) on which
the scan pass over the loop's successive buffers never matches a wanted frame
nor hits the uncaught short-payload error during those 5000 passes — it
returns the timeout indication (None) instead of looping forever.  The serial
driver's get_message loop, by contrast, has no such cap (see the
counterexample). -/
theorem c9_scan_cap_timeout (reads : Nat → List Nat) (w : Nat)
    (h : ∀ k, k < 5000 →
      (scanPass (vmuTrace reads w k ++ reads k) w).isCont = true) :
    get_vmu_packet reads w = VmuResult.timeout := by
  rw [get_vmu_packet]
  exact vmuLoop_trace_timeout reads w 5000 0 (fun k hk1 hk2 => h k (by omega))

/-- Read stream for the C9 witness: the first read delivers a buffer that
does contain a start-marker 0x01 byte (but never a wanted frame), later
reads are empty. -/
def c9_reads : Nat → List Nat :=
  fun k => if k = 0 then [1, 2, 3] else []

/-- Claim C9 witness: the amended theorem at the concrete marker-containing
stream c9_reads, its hypothesis discharged by computing the loop's buffer
trace. -/
theorem c9_witness : get_vmu_packet c9_reads 103 = VmuResult.timeout :=
  c9_scan_cap_timeout c9_reads 103 (by
    have hsp : scanPass [1, 2, 3] 103 = PassResult.cont [1, 2, 3] := by decide
    have htr : ∀ k, vmuTrace c9_reads 103 k ++ c9_reads k = [1, 2, 3] := by
      intro k
      induction k with
      | zero => rfl
      | succ n ihn =>
        rw [vmuTrace, ihn, hsp]
        simp [c9_reads]
    intro k hk
    rw [htr k, hsp]
    rfl)

/-- Outcome of one fuel-bounded unfolding of VMU931Driver.get_message's
unbounded while-loop: a decoded frame, an uncaught exception, or still
running when the fuel is exhausted. -/
inductive SerialResult where
  | success : Nat × Nat × Nat × Nat → SerialResult
  | crashed : SerialResult
  | running : SerialResult
deriving DecidableEq, Repr

/-- VMU931Driver.get_message over an endless serial byte stream s, with the
stream position made explicit and fuel counting consumed reads.  The source
loops with no iteration cap: read single bytes until 0x01, read length, type,
payload and terminator, and retry (continue) on a bad terminator or type.
A declared length below 4 would make the source ask the port for a negative
number of bytes and then index into whatever comes back; that path is
modelled as crashed, as is the uncaught struct.error on a payload shorter
than 16 bytes. -/
def get_message_loop (s : Nat → Nat) (wanted : Nat) : Nat → Nat → SerialResult
  | 0, _ => SerialResult.running
  | fuel + 1, pos =>
    if s pos = 1 then
      if s (pos + 1) < 4 then SerialResult.crashed
      else
        (if s (pos + 3 + (s (pos + 1) - 4)) ≠ 4 then
          get_message_loop s wanted fuel (pos + 4 + (s (pos + 1) - 4))
        else if s (pos + 2) ≠ wanted then
          get_message_loop s wanted fuel (pos + 4 + (s (pos + 1) - 4))
        else
          match decode_motion ((List.range (s (pos + 1) - 4)).map
              (fun k => s (pos + 3 + k))) with
          | some r => SerialResult.success r
          | none => SerialResult.crashed)
    else get_message_loop s wanted fuel (pos + 1)

/-- get_message's loop never terminates on the stream s: no amount of fuel
makes it return. -/
def get_message_diverges (s : Nat → Nat) (wanted : Nat) : Prop :=
  ∀ fuel pos, get_message_loop s wanted fuel pos = SerialResult.running

/-- Claim C9 counterexample: the serial driver's scanning loop (get_message,
one of the two loops the claim covers) has no iteration cap: on the constant
all-zero stream — a stream in which no valid frame ever appears — it is still
running after any number of iterations, in particular beyond 5000, and never
returns a timeout indication. -/
theorem c9_counterexample : get_message_diverges (fun _ => 0) 103 := by
  intro fuel
  induction fuel with
  | zero => intro pos; rfl
  | succ n ih =>
    intro pos
    rw [get_message_loop, if_neg (by simp)]
    exact ih (pos + 1)
